import Mathlib

/-!
# VaaniAi web client: capture / pipeline orchestration

A shallow embedding of `js/app.js`, `js/api.js` and `js/recorder.js`.

* The page's mutable globals (`state`, `recorder`, `historyData`, the `ui`
  elements that the flow functions touch, and the `vaaniHistory` entry of
  `localStorage`) are the fields of one record, `App`.
* Calls that leave the page (recorder start/stop, the three `fetch` requests,
  `audio.play()`) are appended to `App.calls`, oldest first, so that "was
  called", "was not called" and "in this order" are statements about a list.
* What the browser or the server answers is an argument: `MicOutcome`,
  `StopOutcome`, `Fetched`.
* An `async` function is cut at its `await`s: one function for the segment that
  runs synchronously when it is called, one function per resumption.  Between
  two segments any other handler may run.  `endFlow` composes the segments of
  one run with nothing in between.
* Response bodies are typed by the request/response contract: a success body
  carries its field as a string; the error body's `detail` may be absent.
-/

namespace VaaniAi

/-! ## Data model -/

/-- One element of `historyData`: the object `{ src, tgt }`. -/
structure Entry where
  src : String
  tgt : String
  deriving DecidableEq, Repr

/-- What a `catch (e)` can receive: an `Error` object with its `message`, or
any other rejected value (a string, an event), whose `.message` is
`undefined`. -/
inductive Thrown where
  | error (message : String)
  | value (shown : String)
  deriving DecidableEq, Repr

/-- The text JavaScript produces for `"Error: " + e.message`. -/
def Thrown.errorText : Thrown → String
  | .error m => "Error: " ++ m
  | .value _ => "Error: " ++ "undefined"

/-- The `VoiceRecorder` object: `mediaRecorder` is `null` (`none`) until a
`start()` has succeeded; the payload is the stream it was built on. -/
structure VoiceRecorder where
  mediaRecorder : Option Nat
  audioChunks : List String
  deriving DecidableEq, Repr

/-- How `recorder.start()` ends, as decided by the browser. -/
inductive MicOutcome where
  /-- `navigator.mediaDevices` is missing. -/
  | unsupported
  /-- `getUserMedia` rejects (access refused, no device), or the `MediaRecorder`
  constructor throws; the message is the browser's. -/
  | refused (message : String)
  /-- `getUserMedia` resolves with a stream, but `mediaRecorder.start()` throws. -/
  | startThrew (stream : Nat) (message : String)
  /-- `getUserMedia` resolves with a stream and recording starts. -/
  | granted (stream : Nat)
  deriving DecidableEq, Repr

/-- How a `recorder.stop()` on an existing `MediaRecorder` ends. -/
inductive StopOutcome where
  /-- The reader finishes; `b64` is `reader.result.split(',')[1]`. -/
  | data (b64 : String)
  /-- `reader.onerror` fires: the promise is rejected with the event. -/
  | readerError
  /-- `mediaRecorder.stop()` (or the track release) throws inside the executor. -/
  | threw (message : String)
  deriving DecidableEq, Repr

/-- A parsed JSON body.  `text`, `translated_text` and `audio_base64` are the
fields of the three success bodies, `detail` the optional field of an error
body. -/
structure Json where
  text : String := ""
  translated_text : String := ""
  audio_base64 : String := ""
  detail : Option String := none
  deriving DecidableEq, Repr

/-- The settlement of one `fetch` followed by `response.json()`. -/
inductive Fetched where
  /-- `fetch` rejects (network failure) with an error carrying `message`. -/
  | rejected (message : String)
  /-- A response with `status`; `json` is what `response.json()` gives:
  the parsed body, or the message of the parse error. -/
  | response (status : Nat) (json : Except String Json)

/-- The `response.ok` flag: the status is in the range 200 to 299. -/
def Fetched.okStatus (status : Nat) : Bool :=
  decide (200 ≤ status) && decide (status ≤ 299)

/-- An outward call, as recorded in `App.calls`. -/
inductive Call where
  | recorderStart
  | recorderStop
  | stt (base64Audio sourceLang : String)
  | translate (text sourceLang targetLang : String)
  | tts (text targetLang : String)
  | audioPlay (src : String)
  deriving DecidableEq, Repr

/-- The mutable globals of `app.js`. -/
structure App where
  /-- The flag `state.isRecording`. -/
  isRecording : Bool
  recorder : VoiceRecorder
  historyData : List Entry
  /-- The `vaaniHistory` entry of `localStorage` (`none`: no such key). -/
  persisted : Option (List Entry)
  /-- Whether `ui.btn` has class `recording`. -/
  btnRecording : Bool
  /-- The text of `ui.status`. -/
  status : String
  /-- Whether `ui.loading` has class `hidden`. -/
  loadingHidden : Bool
  /-- The text of `ui.transcript`. -/
  transcript : String
  /-- Whether `ui.transcript` has class `placeholder`. -/
  transcriptPlaceholder : Bool
  /-- The text of `ui.translation`. -/
  translation : String
  /-- Whether `ui.translation` has class `placeholder`. -/
  translationPlaceholder : Bool
  /-- The value of `ui.sourceInput`. -/
  sourceInput : String
  /-- The value of `ui.targetInput`. -/
  targetInput : String
  /-- The text of `ui.sourceLabel`. -/
  sourceLabel : String
  /-- The text of `ui.targetLabel`. -/
  targetLabel : String
  /-- The `src` of `ui.audio`. -/
  audioSrc : String
  /-- The `disabled` flag of `ui.replayBtn`. -/
  replayDisabled : Bool
  /-- The outward calls made so far, oldest first. -/
  calls : List Call
  deriving DecidableEq, Repr

/-- The continuation of a suspended `endFlow`, with the locals it still needs. -/
inductive Pending where
  /-- Suspended at `await recorder.stop()`. -/
  | stop
  /-- Suspended at `await API.stt(...)`. -/
  | stt
  /-- Suspended at `await API.translate(...)`; `sttText` is `stt.text`. -/
  | translate (sttText : String)
  /-- Suspended at `await API.tts(...)`. -/
  | tts
  deriving DecidableEq, Repr

/-! ## recorder.js -/

/-- The settlement of `VoiceRecorder.start`: the promise's outcome and the
object afterwards.  A failure before the two assignments leaves the object as
it was. -/
def VoiceRecorder.start (o : MicOutcome) (r : VoiceRecorder) : Except Thrown Unit × VoiceRecorder :=
  match o with
  | .unsupported => (.error (.error "Microphone access not supported in this browser."), r)
  | .refused m => (.error (.error m), r)
  | .startThrew stream m => (.error (.error m), { mediaRecorder := some stream, audioChunks := [] })
  | .granted stream => (.ok (), { mediaRecorder := some stream, audioChunks := [] })

/-- The settlement of `VoiceRecorder.stop`: rejected with the string
`"Recorder not initialized"` when `mediaRecorder` is `null`. -/
def VoiceRecorder.stop (o : StopOutcome) (r : VoiceRecorder) : Except Thrown String :=
  match r.mediaRecorder with
  | none => .error (.value "Recorder not initialized")
  | some _ =>
    match o with
    | .data b64 => .ok b64
    | .readerError => .error (.value "[object ProgressEvent]")
    | .threw m => .error (.error m)

/-! ## api.js -/

/-- The settlement of `API.stt`, from the settlement of its request. -/
def API.stt (f : Fetched) : Except Thrown Json :=
  match f with
  | .rejected m => .error (.error m)
  | .response status json =>
    if !Fetched.okStatus status then
      match json with
      | .error m => .error (.error m)
      | .ok err =>
        -- `err.detail || "STT Failed"`: an absent or empty detail is falsy
        match err.detail with
        | none => .error (.error "STT Failed")
        | some d => if d = "" then .error (.error "STT Failed") else .error (.error d)
    else
      match json with
      | .error m => .error (.error m)
      | .ok body => .ok body

/-- The settlement of `API.translate text ...`, from the settlement of its request. -/
def API.translate (text : String) (f : Fetched) : Except Thrown Json :=
  match f with
  | .rejected m => .error (.error m)
  | .response status json =>
    if status = 404 then .ok { translated_text := text }
    else if !Fetched.okStatus status then .error (.error "Translation Failed")
    else
      match json with
      | .error m => .error (.error m)
      | .ok body => .ok body

/-- The settlement of `API.tts`, from the settlement of its request. -/
def API.tts (f : Fetched) : Except Thrown Json :=
  match f with
  | .rejected m => .error (.error m)
  | .response status json =>
    if !Fetched.okStatus status then .error (.error "TTS Failed")
    else
      match json with
      | .error m => .error (.error m)
      | .ok body => .ok body

/-! ## app.js -/

/-- The initialiser of `historyData`:
`JSON.parse(localStorage.getItem('vaaniHistory')) || []`. -/
def loadHistory (stored : Option (List Entry)) : List Entry :=
  match stored with
  | none => []
  | some h => h

/-- The array operations of `addToHistory`: `unshift` the new entry, then one
`pop` if the length is above 20. -/
def historyPush (src tgt : String) (h : List Entry) : List Entry :=
  let h1 := { src := src, tgt := tgt } :: h
  if h1.length > 20 then h1.dropLast else h1

/-- The function `addToHistory(src, tgt)`: update `historyData` and write the
whole array to `localStorage` (the redrawing of the history panel is not
part of the state). -/
def addToHistory (src tgt : String) (s : App) : App :=
  let h := historyPush src tgt s.historyData
  { s with historyData := h, persisted := some h }

/-- The function `clearHistory()`. -/
def clearHistory (s : App) : App :=
  { s with historyData := [], persisted := none }

/-- The function `swapLanguages()`. -/
def swapLanguages (s : App) : App :=
  let s1 := { s with sourceInput := s.targetInput, targetInput := s.sourceInput }
  let s2 := { s1 with sourceLabel := s1.targetLabel, targetLabel := s1.sourceLabel }
  if !s2.transcriptPlaceholder then
    { s2 with transcript := s2.translation, translation := s2.transcript }
  else s2

/-- The function `playAudio(b64)`. -/
def playAudio (b64 : String) (s : App) : App :=
  let src := "data:audio/mp3;base64," ++ b64
  { s with audioSrc := src, calls := s.calls ++ [Call.audioPlay src] }

/-- The segment of `startFlow` that runs when it is called, up to and including
the call `recorder.start()`.  The flag tells whether the function suspended
(`true`) or returned at the guard (`false`). -/
def startFlowBegin (s : App) : App × Bool :=
  if s.isRecording then (s, false)
  else
    ({ s with
        isRecording := true
        btnRecording := true
        status := "Listening..."
        transcriptPlaceholder := false
        transcript := "Listening..."
        calls := s.calls ++ [Call.recorderStart] }, true)

/-- The settlement of the `recorder.start()` that `startFlow` awaits.  Nothing
follows the `await`, so only the recorder object changes. -/
def startFlowSettle (o : MicOutcome) (s : App) : App :=
  { s with recorder := (s.recorder.start o).2 }

/-- One whole `startFlow()`, its `recorder.start()` ending as `o`. -/
def startFlow (o : MicOutcome) (s : App) : App :=
  match startFlowBegin s with
  | (s1, true) => startFlowSettle o s1
  | (s1, false) => s1

/-- The `catch` and `finally` blocks of `endFlow`. -/
def endFlowCatch (e : Thrown) (s : App) : App :=
  { s with transcript := e.errorText, loadingHidden := true }

/-- The segment of `endFlow` that runs when it is called, up to and including
the call `recorder.stop()`. -/
def endFlowBegin (s : App) : App × Option Pending :=
  if !s.isRecording then (s, none)
  else
    ({ s with
        isRecording := false
        btnRecording := false
        status := "Thinking..."
        loadingHidden := false
        calls := s.calls ++ [Call.recorderStop] }, some Pending.stop)

/-- Resumption after `await recorder.stop()`. -/
def endFlowAfterStop (r : Except Thrown String) (s : App) : App × Option Pending :=
  match r with
  | .error e => (endFlowCatch e s, none)
  | .ok audioData =>
    ({ s with calls := s.calls ++ [Call.stt audioData s.sourceInput] }, some Pending.stt)

/-- Resumption after `await API.stt(...)`. -/
def endFlowAfterStt (r : Except Thrown Json) (s : App) : App × Option Pending :=
  match r with
  | .error e => (endFlowCatch e s, none)
  | .ok stt =>
    let s1 := { s with transcript := stt.text }
    ({ s1 with calls := s1.calls ++ [Call.translate stt.text s1.sourceInput s1.targetInput] },
      some (Pending.translate stt.text))

/-- Resumption after `await API.translate(...)`. -/
def endFlowAfterTranslate (sttText : String) (r : Except Thrown Json) (s : App) :
    App × Option Pending :=
  match r with
  | .error e => (endFlowCatch e s, none)
  | .ok translated =>
    let s1 := { s with translation := translated.translated_text, translationPlaceholder := false }
    let s2 := addToHistory sttText translated.translated_text s1
    ({ s2 with calls := s2.calls ++ [Call.tts translated.translated_text s2.targetInput] },
      some Pending.tts)

/-- Resumption after `await API.tts(...)`. -/
def endFlowAfterTts (r : Except Thrown Json) (s : App) : App × Option Pending :=
  match r with
  | .error e => (endFlowCatch e s, none)
  | .ok tts =>
    let s1 := playAudio tts.audio_base64 s
    ({ s1 with replayDisabled := false, status := "Ready", loadingHidden := true }, none)

/-- What the environment answers during one run of `endFlow`. -/
structure Env where
  stop : StopOutcome
  stt : Fetched
  translate : Fetched
  tts : Fetched

/-- One whole run of `endFlow()` with no other handler running in between. -/
def endFlow (env : Env) (s : App) : App :=
  match endFlowBegin s with
  | (s0, none) => s0
  | (s0, some _) =>
    match endFlowAfterStop (s0.recorder.stop env.stop) s0 with
    | (s1, none) => s1
    | (s1, some _) =>
      match endFlowAfterStt (API.stt env.stt) s1 with
      | (s2, some (Pending.translate sttText)) =>
        (match endFlowAfterTranslate sttText (API.translate sttText env.translate) s2 with
        | (s3, none) => s3
        | (s3, some _) => (endFlowAfterTts (API.tts env.tts) s3).1)
      | (s2, _) => s2

/-- The history after a sequence of `addToHistory` calls, the first call first. -/
def addAll (calls : List Entry) (s : App) : App :=
  calls.foldl (fun acc e => addToHistory e.src e.tgt acc) s

/-- The states in which a run of `endFlow` that started from a recording state
is suspended at an `await`, no other handler having run since it began; the
second index is the `await` it is suspended at. -/
inductive InPipeline : App → Pending → Prop where
  | begin (s s1 : App) (p : Pending) :
      s.isRecording = true → endFlowBegin s = (s1, some p) → InPipeline s1 p
  | afterStop (s s1 : App) (r : Except Thrown String) (p : Pending) :
      InPipeline s Pending.stop → endFlowAfterStop r s = (s1, some p) → InPipeline s1 p
  | afterStt (s s1 : App) (r : Except Thrown Json) (p : Pending) :
      InPipeline s Pending.stt → endFlowAfterStt r s = (s1, some p) → InPipeline s1 p
  | afterTranslate (s s1 : App) (sttText : String) (r : Except Thrown Json) (p : Pending) :
      InPipeline s (Pending.translate sttText) →
      endFlowAfterTranslate sttText r s = (s1, some p) → InPipeline s1 p

/-! ## Example pages -/

/-- An example page with nothing recorded yet: idle, recorder not initialised,
empty history and nothing stored, English to Hindi, both text boxes showing a
placeholder. -/
def idlePage : App where
  isRecording := false
  recorder := { mediaRecorder := none, audioChunks := [] }
  historyData := loadHistory none
  persisted := none
  btnRecording := false
  status := "Ready"
  loadingHidden := true
  transcript := "Hold to speak"
  transcriptPlaceholder := true
  translation := "Translation"
  translationPlaceholder := true
  sourceInput := "en"
  targetInput := "hi"
  sourceLabel := "English"
  targetLabel := "Hindi"
  audioSrc := ""
  replayDisabled := true
  calls := []

/-- The idle page after a `startFlow()` whose microphone request was granted. -/
def recordingPage : App := startFlow (.granted 1) idlePage

/-- The entries of twenty-one calls, numbered 1 to 21. -/
def twentyOneCalls : List Entry :=
  (List.range 21).map (fun i => { src := toString (i + 1), tgt := "t" })

/-- A page whose history was loaded from a stored record of 21 entries. -/
def longHistoryPage : App :=
  { idlePage with
    historyData := loadHistory (some (List.replicate 21 { src := "a", tgt := "b" }))
    persisted := some (List.replicate 21 { src := "a", tgt := "b" }) }

/-! ## Example runs -/

/-- The run of the end-to-end scenario: the recorder delivers `"UklGRg=="`,
transcribe answers `hello`, translate `bonjour`, synthesize `QUJD`. -/
def envSuccess : Env where
  stop := .data "UklGRg=="
  stt := .response 200 (.ok { text := "hello" })
  translate := .response 200 (.ok { translated_text := "bonjour" })
  tts := .response 200 (.ok { audio_base64 := "QUJD" })

/-- As `envSuccess`, but the translate request is answered with status 500. -/
def envTranslateFails : Env :=
  { envSuccess with translate := .response 500 (.ok { detail := some "boom" }) }

/-- As `envSuccess`, but the synthesize request is answered with status 500. -/
def envTtsFails : Env :=
  { envSuccess with tts := .response 500 (.ok { detail := some "boom" }) }

/-- As `envSuccess`, but the translate request is answered with status 404. -/
def envTranslateMissing : Env :=
  { envSuccess with translate := .response 404 (.error "Unexpected token") }

/-- As `envSuccess`, but the transcribe request is answered with status 400 and
the body `detail: "bad audio"`. -/
def envBadAudio : Env :=
  { envSuccess with stt := .response 400 (.ok { detail := some "bad audio" }) }

/-! ## History -/

theorem historyPush_eq (src tgt : String) (h : List Entry) :
    historyPush src tgt h =
      if 20 ≤ h.length then { src := src, tgt := tgt } :: h.dropLast
      else { src := src, tgt := tgt } :: h := by
  unfold historyPush
  cases h with
  | nil => simp
  | cons a t =>
    simp only [List.length_cons, List.dropLast_cons₂]
    by_cases hl : 20 ≤ t.length + 1
    · have h1 : t.length + 1 + 1 > 20 := by omega
      simp [hl, h1]
    · have h1 : ¬ (t.length + 1 + 1 > 20) := by omega
      simp [hl, h1]

theorem historyPush_eq_take (src tgt : String) (h : List Entry) (hl : h.length ≤ 20) :
    historyPush src tgt h = ({ src := src, tgt := tgt } :: h).take 20 := by
  rw [historyPush_eq]
  by_cases h20 : 20 ≤ h.length
  · have hlen : h.length = 20 := by omega
    rw [if_pos h20, List.dropLast_eq_take, hlen]
    simp
  · rw [if_neg h20]
    have : h.length < 20 := by omega
    rw [List.take_of_length_le]
    simp only [List.length_cons]
    omega

theorem historyPush_length_le (src tgt : String) (h : List Entry) (hl : h.length ≤ 20) :
    (historyPush src tgt h).length ≤ 20 := by
  rw [historyPush_eq_take src tgt h hl]
  simp

theorem addAll_append (cs : List Entry) (c : Entry) (s : App) :
    addAll (cs ++ [c]) s = addToHistory c.src c.tgt (addAll cs s) := by
  simp [addAll, List.foldl_append]

theorem addAll_history (cs : List Entry) (s : App) (h0 : s.historyData = []) :
    (addAll cs s).historyData = cs.reverse.take 20 := by
  induction cs using List.reverseRecOn with
  | nil => simp [addAll, h0]
  | append_singleton cs c ih =>
    rw [addAll_append]
    show historyPush c.src c.tgt (addAll cs s).historyData = _
    rw [historyPush_eq_take _ _ _ (by rw [ih]; simp), ih]
    simp [List.take_take]

/-! ## Runs of `endFlow` -/

/-- The state in which a run of `endFlow` is suspended at `await API.stt(...)`
when the recorder delivers audio `a`. -/
theorem endFlow_run_eq (env : Env) (s : App) (m : Nat) (a : String)
    (hrec : s.isRecording = true) (hm : s.recorder.mediaRecorder = some m)
    (hstop : env.stop = .data a) :
    endFlow env s =
      match endFlowAfterStt (API.stt env.stt)
          { s with
            isRecording := false
            btnRecording := false
            status := "Thinking..."
            loadingHidden := false
            calls := s.calls ++ [Call.recorderStop, Call.stt a s.sourceInput] } with
      | (s2, some (Pending.translate sttText)) =>
        (match endFlowAfterTranslate sttText (API.translate sttText env.translate) s2 with
        | (s3, none) => s3
        | (s3, some _) => (endFlowAfterTts (API.tts env.tts) s3).1)
      | (s2, _) => s2 := by
  simp [endFlow, endFlowBegin, hrec, VoiceRecorder.stop, hm, hstop, endFlowAfterStop]

theorem endFlow_stt_error (env : Env) (s : App) (m : Nat) (a : String) (e : Thrown)
    (hrec : s.isRecording = true) (hm : s.recorder.mediaRecorder = some m)
    (hstop : env.stop = .data a) (hstt : API.stt env.stt = .error e) :
    endFlow env s =
      { s with
        isRecording := false
        btnRecording := false
        status := "Thinking..."
        loadingHidden := true
        transcript := e.errorText
        calls := s.calls ++ [Call.recorderStop, Call.stt a s.sourceInput] } := by
  rw [endFlow_run_eq env s m a hrec hm hstop, hstt]
  simp [endFlowAfterStt, endFlowCatch]

theorem endFlow_translate_error (env : Env) (s : App) (m : Nat) (a : String) (body : Json)
    (e : Thrown)
    (hrec : s.isRecording = true) (hm : s.recorder.mediaRecorder = some m)
    (hstop : env.stop = .data a) (hstt : API.stt env.stt = .ok body)
    (htr : API.translate body.text env.translate = .error e) :
    endFlow env s =
      { s with
        isRecording := false
        btnRecording := false
        status := "Thinking..."
        loadingHidden := true
        transcript := e.errorText
        calls := s.calls ++ [Call.recorderStop, Call.stt a s.sourceInput,
          Call.translate body.text s.sourceInput s.targetInput] } := by
  rw [endFlow_run_eq env s m a hrec hm hstop, hstt]
  simp [endFlowAfterStt, endFlowAfterTranslate, htr, endFlowCatch]

theorem endFlow_tts_error (env : Env) (s : App) (m : Nat) (a : String) (body tr : Json)
    (e : Thrown)
    (hrec : s.isRecording = true) (hm : s.recorder.mediaRecorder = some m)
    (hstop : env.stop = .data a) (hstt : API.stt env.stt = .ok body)
    (htr : API.translate body.text env.translate = .ok tr)
    (htts : API.tts env.tts = .error e) :
    endFlow env s =
      { s with
        isRecording := false
        btnRecording := false
        status := "Thinking..."
        loadingHidden := true
        transcript := e.errorText
        translation := tr.translated_text
        translationPlaceholder := false
        historyData := historyPush body.text tr.translated_text s.historyData
        persisted := some (historyPush body.text tr.translated_text s.historyData)
        calls := s.calls ++ [Call.recorderStop, Call.stt a s.sourceInput,
          Call.translate body.text s.sourceInput s.targetInput,
          Call.tts tr.translated_text s.targetInput] } := by
  rw [endFlow_run_eq env s m a hrec hm hstop, hstt]
  simp [endFlowAfterStt, endFlowAfterTranslate, htr, endFlowAfterTts, htts, endFlowCatch,
    addToHistory]

theorem endFlow_success (env : Env) (s : App) (m : Nat) (a : String) (body tr sp : Json)
    (hrec : s.isRecording = true) (hm : s.recorder.mediaRecorder = some m)
    (hstop : env.stop = .data a) (hstt : API.stt env.stt = .ok body)
    (htr : API.translate body.text env.translate = .ok tr)
    (htts : API.tts env.tts = .ok sp) :
    endFlow env s =
      { s with
        isRecording := false
        btnRecording := false
        status := "Ready"
        loadingHidden := true
        transcript := body.text
        translation := tr.translated_text
        translationPlaceholder := false
        historyData := historyPush body.text tr.translated_text s.historyData
        persisted := some (historyPush body.text tr.translated_text s.historyData)
        audioSrc := "data:audio/mp3;base64," ++ sp.audio_base64
        replayDisabled := false
        calls := s.calls ++ [Call.recorderStop, Call.stt a s.sourceInput,
          Call.translate body.text s.sourceInput s.targetInput,
          Call.tts tr.translated_text s.targetInput,
          Call.audioPlay ("data:audio/mp3;base64," ++ sp.audio_base64)] } := by
  rw [endFlow_run_eq env s m a hrec hm hstop, hstt]
  simp [endFlowAfterStt, endFlowAfterTranslate, htr, endFlowAfterTts, htts, playAudio,
    addToHistory]

theorem historyPush_head (src tgt : String) (h : List Entry) :
    (historyPush src tgt h).head? = some { src := src, tgt := tgt } := by
  rw [historyPush_eq]
  split <;> simp

/-! ## The guard of `startFlow` -/

theorem InPipeline.not_recording {s : App} {p : Pending} (h : InPipeline s p) :
    s.isRecording = false := by
  induction h with
  | begin s s1 p hrec hb =>
    simp [endFlowBegin, hrec] at hb
    rw [← hb.1]
  | afterStop s s1 r p _ hstep ih =>
    cases r with
    | error e => simp [endFlowAfterStop] at hstep
    | ok a =>
      simp [endFlowAfterStop] at hstep
      rw [← hstep.1]; exact ih
  | afterStt s s1 r p _ hstep ih =>
    cases r with
    | error e => simp [endFlowAfterStt] at hstep
    | ok a =>
      simp [endFlowAfterStt] at hstep
      rw [← hstep.1]; exact ih
  | afterTranslate s s1 t r p _ hstep ih =>
    cases r with
    | error e => simp [endFlowAfterTranslate] at hstep
    | ok a =>
      simp [endFlowAfterTranslate, addToHistory] at hstep
      rw [← hstep.1]; exact ih

theorem startFlow_of_recording (o : MicOutcome) (s : App) (h : s.isRecording = true) :
    startFlowBegin s = (s, false) ∧ startFlow o s = s := by
  simp [startFlow, startFlowBegin, h]

theorem startFlow_of_not_recording (o : MicOutcome) (s : App) (h : s.isRecording = false) :
    startFlow o s =
      { s with
        isRecording := true
        btnRecording := true
        status := "Listening..."
        transcriptPlaceholder := false
        transcript := "Listening..."
        recorder := (s.recorder.start o).2
        calls := s.calls ++ [Call.recorderStart] } := by
  simp [startFlow, startFlowBegin, startFlowSettle, h]

/-! ## Claims about the history -/

/-- C1: starting from an empty history, after any finite sequence of
`addToHistory` calls the history has at most 20 entries and is ordered
most-recent-first (it is the first 20 entries of the calls in reverse order,
so index `i` holds the entry of the call `i` steps before the latest); and when
it holds exactly 20 entries, one more `addToHistory` puts the new entry in
front of the other entries without their last (oldest) one, still 20 in all. -/
theorem C1_history_capped_recent_first (calls : List Entry) (s : App)
    (hempty : s.historyData = []) :
    (addAll calls s).historyData.length ≤ 20 ∧
    (addAll calls s).historyData = calls.reverse.take 20 ∧
    (∀ i, i < 20 → (addAll calls s).historyData[i]? = calls.reverse[i]?) ∧
    (∀ src tgt, (addAll calls s).historyData.length = 20 →
      (addToHistory src tgt (addAll calls s)).historyData =
        { src := src, tgt := tgt } :: (addAll calls s).historyData.dropLast ∧
      (addToHistory src tgt (addAll calls s)).historyData.length = 20) := by
  have hh := addAll_history calls s hempty
  refine ⟨by rw [hh]; simp, hh, ?_, ?_⟩
  · intro i hi
    rw [hh, List.getElem?_take_of_lt hi]
  · intro src tgt hlen
    have h1 : (addToHistory src tgt (addAll calls s)).historyData =
        { src := src, tgt := tgt } :: (addAll calls s).historyData.dropLast := by
      show historyPush src tgt (addAll calls s).historyData = _
      rw [historyPush_eq, if_pos (by omega)]
    refine ⟨h1, ?_⟩
    rw [h1]
    simp [hlen]

theorem C1_history_capped_recent_first_witness :
    idlePage.historyData = [] ∧
    (addAll twentyOneCalls idlePage).historyData.length ≤ 20 ∧
    (addAll twentyOneCalls idlePage).historyData = twentyOneCalls.reverse.take 20 :=
  ⟨rfl, (C1_history_capped_recent_first twentyOneCalls idlePage rfl).1,
    (C1_history_capped_recent_first twentyOneCalls idlePage rfl).2.1⟩

/-- C10 (as amended): for every history `h` and every pair, `addToHistory`
leaves a sequence with the new entry at the front whose full contents are what
is written to the persisted record; exactly one entry, the last, is removed
when `h` already holds 20 or more entries, so the result is the first 20
entries of the new entry followed by `h` (length at most 20) when `h` has at
most 20 entries, and has the length of `h` when `h` is longer. -/
theorem C10_addToHistory_single_pop (src tgt : String) (s : App) :
    (addToHistory src tgt s).historyData.head? = some { src := src, tgt := tgt } ∧
    (addToHistory src tgt s).persisted = some (addToHistory src tgt s).historyData ∧
    (s.historyData.length ≤ 20 →
      (addToHistory src tgt s).historyData =
        ({ src := src, tgt := tgt } :: s.historyData).take 20 ∧
      (addToHistory src tgt s).historyData.length ≤ 20) ∧
    (20 ≤ s.historyData.length →
      (addToHistory src tgt s).historyData =
        { src := src, tgt := tgt } :: s.historyData.dropLast ∧
      (addToHistory src tgt s).historyData.length = s.historyData.length) := by
  refine ⟨historyPush_head src tgt s.historyData, rfl, ?_, ?_⟩
  · intro hl
    exact ⟨historyPush_eq_take src tgt _ hl, historyPush_length_le src tgt _ hl⟩
  · intro hl
    have h1 : (addToHistory src tgt s).historyData =
        { src := src, tgt := tgt } :: s.historyData.dropLast := by
      show historyPush src tgt s.historyData = _
      rw [historyPush_eq, if_pos hl]
    refine ⟨h1, ?_⟩
    rw [h1]
    simp
    omega

theorem C10_addToHistory_single_pop_witness :
    (idlePage.historyData.length ≤ 20 ∧
      (addToHistory "hello" "bonjour" idlePage).historyData =
        ({ src := "hello", tgt := "bonjour" } :: idlePage.historyData).take 20) ∧
    (20 ≤ longHistoryPage.historyData.length ∧
      (addToHistory "hello" "bonjour" longHistoryPage).historyData.length =
        longHistoryPage.historyData.length) :=
  ⟨⟨by decide, ((C10_addToHistory_single_pop "hello" "bonjour" idlePage).2.2.1 (by decide)).1⟩,
    ⟨by decide,
      ((C10_addToHistory_single_pop "hello" "bonjour" longHistoryPage).2.2.2 (by decide)).2⟩⟩

/-- C10 (as stated) fails: on a history of 21 entries, as a stored record can
hold, `addToHistory` leaves 21 entries, which is not the first 20 entries of
the new entry followed by the old history. -/
theorem C10_counterexample :
    longHistoryPage.historyData.length = 21 ∧
    (addToHistory "hello" "bonjour" longHistoryPage).historyData.length = 21 ∧
    ¬ ((addToHistory "hello" "bonjour" longHistoryPage).historyData.length ≤ 20) ∧
    (addToHistory "hello" "bonjour" longHistoryPage).historyData ≠
      ({ src := "hello", tgt := "bonjour" } :: longHistoryPage.historyData).take 20 := by
  have hlen : (addToHistory "hello" "bonjour" longHistoryPage).historyData.length = 21 := by
    decide
  refine ⟨by decide, hlen, by omega, ?_⟩
  intro h
  have h2 := congrArg List.length h
  have h3 := List.length_take_le 20
    ({ src := "hello", tgt := "bonjour" } :: longHistoryPage.historyData)
  omega

/-! ## Claims about `startFlow` -/

/-- C2 (as amended): `startFlow` is a no-op exactly when `state.isRecording`
is true.  When the flag is true (a recording is in progress) the whole state,
the call log included, is unchanged and `recorder.start()` is not called; when
it is false, `startFlow` sets it, writes `"Listening..."` to the status and the
transcript, and calls `recorder.start()`.  A run of `endFlow` resets the flag
when it begins and none of its resumptions sets it, so in every state in which
the run is suspended at one of its `await`s and no other handler has run since
the run began (in particular no `startFlow` has set the flag again) the flag
is false and `startFlow` is not blocked; after that one `startFlow` the flag
is true again and a further `startFlow` is a no-op, the run being still
suspended. -/
theorem C2_startFlow_guard (o : MicOutcome) (s : App) :
    (s.isRecording = true → startFlowBegin s = (s, false) ∧ startFlow o s = s) ∧
    (s.isRecording = false →
      (startFlowBegin s).2 = true ∧
      (startFlow o s).isRecording = true ∧
      (startFlow o s).status = "Listening..." ∧
      (startFlow o s).transcript = "Listening..." ∧
      (startFlow o s).calls = s.calls ++ [Call.recorderStart]) ∧
    (∀ p, InPipeline s p →
      s.isRecording = false ∧
      (startFlowBegin s).2 = true ∧
      (startFlow o s).isRecording = true ∧
      (startFlow o s).status = "Listening..." ∧
      (startFlow o s).transcript = "Listening..." ∧
      (startFlow o s).calls = s.calls ++ [Call.recorderStart] ∧
      (∀ o2, startFlow o2 (startFlow o s) = startFlow o s)) := by
  have hfree : s.isRecording = false →
      (startFlowBegin s).2 = true ∧
      (startFlow o s).isRecording = true ∧
      (startFlow o s).status = "Listening..." ∧
      (startFlow o s).transcript = "Listening..." ∧
      (startFlow o s).calls = s.calls ++ [Call.recorderStart] := by
    intro h
    rw [startFlow_of_not_recording o s h]
    simp [startFlowBegin, h]
  refine ⟨startFlow_of_recording o s, hfree, ?_⟩
  intro p hp
  have h := hp.not_recording
  obtain ⟨h1, h2, h3, h4, h5⟩ := hfree h
  exact ⟨h, h1, h2, h3, h4, h5, fun o2 => (startFlow_of_recording o2 _ h2).2⟩

theorem C2_startFlow_guard_witness :
    (recordingPage.isRecording = true ∧
      startFlow (.granted 2) recordingPage = recordingPage) ∧
    (idlePage.isRecording = false ∧
      (startFlow (.granted 2) idlePage).calls = idlePage.calls ++ [Call.recorderStart]) ∧
    (InPipeline (endFlowBegin recordingPage).1 Pending.stop ∧
      (startFlow (.granted 2) (endFlowBegin recordingPage).1).calls =
        (endFlowBegin recordingPage).1.calls ++ [Call.recorderStart] ∧
      startFlow (.granted 3) (startFlow (.granted 2) (endFlowBegin recordingPage).1) =
        startFlow (.granted 2) (endFlowBegin recordingPage).1) :=
  ⟨⟨rfl, ((C2_startFlow_guard (.granted 2) recordingPage).1 rfl).2⟩,
    ⟨rfl, ((C2_startFlow_guard (.granted 2) idlePage).2.1 rfl).2.2.2.2⟩,
    ⟨InPipeline.begin recordingPage _ _ rfl rfl,
      ((C2_startFlow_guard (.granted 2) (endFlowBegin recordingPage).1).2.2 Pending.stop
        (InPipeline.begin recordingPage _ _ rfl rfl)).2.2.2.2.2.1,
      ((C2_startFlow_guard (.granted 2) (endFlowBegin recordingPage).1).2.2 Pending.stop
        (InPipeline.begin recordingPage _ _ rfl rfl)).2.2.2.2.2.2 (.granted 3)⟩⟩

/-- C2 (as stated) fails: once `endFlow` has begun on a recording page and is
suspended at `await recorder.stop()`, a `startFlow` changes
`state.isRecording` from false to true, replaces the status text and calls
`recorder.start()`. -/
theorem C2_counterexample :
    InPipeline (endFlowBegin recordingPage).1 Pending.stop ∧
    (endFlowBegin recordingPage).1.isRecording = false ∧
    (startFlow (.granted 2) (endFlowBegin recordingPage).1).isRecording = true ∧
    (endFlowBegin recordingPage).1.status = "Thinking..." ∧
    (startFlow (.granted 2) (endFlowBegin recordingPage).1).status = "Listening..." ∧
    (startFlow (.granted 2) (endFlowBegin recordingPage).1).calls =
      (endFlowBegin recordingPage).1.calls ++ [Call.recorderStart] ∧
    startFlow (.granted 2) (endFlowBegin recordingPage).1 ≠ (endFlowBegin recordingPage).1 := by
  refine ⟨InPipeline.begin recordingPage _ _ rfl rfl, rfl, rfl, rfl, rfl, rfl, ?_⟩
  intro h
  have h2 := congrArg App.isRecording h
  exact absurd h2 (by decide)

/-- C8 (as amended): when no recording is in progress, `startFlow` leaves
`state.isRecording` true (with the status `"Listening..."`) however
`recorder.start()` ends, so also when it fails for lack of an audio-capture
capability or because access is refused; a following `endFlow` is then not a
no-op (it resets the flag to false and calls `recorder.stop()`), and a
following `startFlow` is blocked by the guard. -/
theorem C8_failed_start_sets_flag (o : MicOutcome) (s : App)
    (hidle : s.isRecording = false) :
    (startFlow o s).isRecording = true ∧
    (startFlow o s).status = "Listening..." ∧
    (endFlowBegin (startFlow o s)).2 = some Pending.stop ∧
    (endFlowBegin (startFlow o s)).1.isRecording = false ∧
    (endFlowBegin (startFlow o s)).1.calls =
      s.calls ++ [Call.recorderStart, Call.recorderStop] ∧
    (∀ o2, startFlow o2 (startFlow o s) = startFlow o s) := by
  have h1 : (startFlow o s).isRecording = true := by
    rw [startFlow_of_not_recording o s hidle]
  refine ⟨h1, ?_, ?_, ?_, ?_, fun o2 => (startFlow_of_recording o2 _ h1).2⟩
  · rw [startFlow_of_not_recording o s hidle]
  · simp [endFlowBegin, h1]
  · simp [endFlowBegin, h1]
  · simp [endFlowBegin, h1]
    rw [startFlow_of_not_recording o s hidle]
    simp

theorem C8_failed_start_sets_flag_witness :
    idlePage.isRecording = false ∧
    (idlePage.recorder.start (MicOutcome.refused "Permission denied")).1 =
      .error (Thrown.error "Permission denied") ∧
    (startFlow (MicOutcome.refused "Permission denied") idlePage).isRecording = true ∧
    (endFlowBegin (startFlow (MicOutcome.refused "Permission denied") idlePage)).2 =
      some Pending.stop :=
  ⟨rfl, rfl,
    (C8_failed_start_sets_flag (MicOutcome.refused "Permission denied") idlePage rfl).1,
    (C8_failed_start_sets_flag (MicOutcome.refused "Permission denied") idlePage rfl).2.2.1⟩

/-- C8 (as stated) fails: on the idle page, with no audio-capture capability,
`recorder.start()` fails and `state.isRecording` is true after `startFlow`; the
following `endFlow` is not a no-op and the following `startFlow` is. -/
theorem C8_counterexample :
    idlePage.isRecording = false ∧
    (idlePage.recorder.start MicOutcome.unsupported).1 =
      .error (Thrown.error "Microphone access not supported in this browser.") ∧
    (startFlow MicOutcome.unsupported idlePage).isRecording = true ∧
    (endFlowBegin (startFlow MicOutcome.unsupported idlePage)).2 = some Pending.stop ∧
    startFlow (MicOutcome.granted 1) (startFlow MicOutcome.unsupported idlePage) =
      startFlow MicOutcome.unsupported idlePage :=
  ⟨rfl, rfl, rfl, rfl, rfl⟩

/-! ## Claims about `swapLanguages` -/

/-- C9: `swapLanguages` is an involution on the page state (language codes,
labels, transcript and translation text, placeholder flag and all the rest),
and one application exchanges the source and target codes and labels. -/
theorem C9_swapLanguages_involution (s : App) :
    swapLanguages (swapLanguages s) = s ∧
    (swapLanguages s).sourceInput = s.targetInput ∧
    (swapLanguages s).targetInput = s.sourceInput ∧
    (swapLanguages s).sourceLabel = s.targetLabel ∧
    (swapLanguages s).targetLabel = s.sourceLabel := by
  cases s with
  | mk isRecording recorder historyData persisted btnRecording status loadingHidden transcript
      transcriptPlaceholder translation translationPlaceholder sourceInput targetInput
      sourceLabel targetLabel audioSrc replayDisabled calls =>
    cases transcriptPlaceholder <;> simp [swapLanguages]

/-! ## Claims about runs of `endFlow` -/

/-- C3 (as amended): a stage failure keeps the published translation but not
the transcript.  In a run of `endFlow` in which transcribe succeeds with text
`t`: if translate fails with `e`, the transcript shown afterwards is
`"Error: " + e.message` and the translation text is the one from before the
run; if translate succeeds with text `u` and synthesize fails with `e`, the
translation shown is still `u` and the transcript shown is
`"Error: " + e.message`. -/
theorem C3_failure_keeps_translation_only (env : Env) (s : App) (m : Nat) (a : String)
    (body : Json) (e : Thrown)
    (hrec : s.isRecording = true) (hm : s.recorder.mediaRecorder = some m)
    (hstop : env.stop = .data a) (hstt : API.stt env.stt = .ok body) :
    (API.translate body.text env.translate = .error e →
      (endFlow env s).transcript = e.errorText ∧
      (endFlow env s).translation = s.translation) ∧
    (∀ tr, API.translate body.text env.translate = .ok tr → API.tts env.tts = .error e →
      (endFlow env s).transcript = e.errorText ∧
      (endFlow env s).translation = tr.translated_text) := by
  constructor
  · intro htr
    rw [endFlow_translate_error env s m a body e hrec hm hstop hstt htr]
    exact ⟨rfl, rfl⟩
  · intro tr htr htts
    rw [endFlow_tts_error env s m a body tr e hrec hm hstop hstt htr htts]
    exact ⟨rfl, rfl⟩

theorem C3_failure_keeps_translation_only_witness :
    (endFlow envTranslateFails recordingPage).transcript = "Error: Translation Failed" ∧
    (endFlow envTtsFails recordingPage).translation = "bonjour" :=
  ⟨((C3_failure_keeps_translation_only envTranslateFails recordingPage 1 "UklGRg=="
      { text := "hello" } (Thrown.error "Translation Failed") rfl rfl rfl rfl).1 rfl).1,
    ((C3_failure_keeps_translation_only envTtsFails recordingPage 1 "UklGRg=="
      { text := "hello" } (Thrown.error "TTS Failed") rfl rfl rfl rfl).2
      { translated_text := "bonjour" } rfl rfl).2⟩

/-- C3 (as stated) fails: transcribe succeeds with `hello`; when translate then
fails the transcript shown is `Error: Translation Failed`, and when synthesize
fails after a successful translate it is `Error: TTS Failed`; in neither run
is it still `hello`. -/
theorem C3_counterexample :
    API.stt envTranslateFails.stt = .ok { text := "hello" } ∧
    API.translate "hello" envTranslateFails.translate =
      .error (Thrown.error "Translation Failed") ∧
    (endFlow envTranslateFails recordingPage).transcript = "Error: Translation Failed" ∧
    (endFlow envTranslateFails recordingPage).transcript ≠ "hello" ∧
    API.translate "hello" envTtsFails.translate = .ok { translated_text := "bonjour" } ∧
    API.tts envTtsFails.tts = .error (Thrown.error "TTS Failed") ∧
    (endFlow envTtsFails recordingPage).transcript = "Error: TTS Failed" ∧
    (endFlow envTtsFails recordingPage).transcript ≠ "hello" := by
  refine ⟨rfl, rfl, rfl, by decide, rfl, rfl, rfl, by decide⟩

/-- C4 (as amended): for every non-empty detail message `d`, when the
transcribe request gets a non-success response whose body carries detail `d`,
`API.stt` fails with an error whose message is exactly `d`, and the `endFlow`
run that receives it (recorder delivered audio `a`) makes no call after the
transcribe call, so no translate and no synthesize call, shows
`"Error: " + d`, and leaves the history sequence and its persisted record
unchanged. -/
theorem C4_stt_detail_aborts (env : Env) (s : App) (m : Nat) (a d : String) (status : Nat)
    (err : Json)
    (hrec : s.isRecording = true) (hm : s.recorder.mediaRecorder = some m)
    (hstop : env.stop = .data a)
    (hresp : env.stt = .response status (.ok err))
    (hstatus : Fetched.okStatus status = false)
    (hdetail : err.detail = some d) (hd : d ≠ "") :
    API.stt env.stt = .error (Thrown.error d) ∧
    (endFlow env s).calls = s.calls ++ [Call.recorderStop, Call.stt a s.sourceInput] ∧
    (endFlow env s).transcript = "Error: " ++ d ∧
    (endFlow env s).historyData = s.historyData ∧
    (endFlow env s).persisted = s.persisted := by
  have hstt : API.stt env.stt = .error (Thrown.error d) := by
    simp [hresp, API.stt, hstatus, hdetail, hd]
  rw [endFlow_stt_error env s m a (Thrown.error d) hrec hm hstop hstt]
  exact ⟨hstt, rfl, rfl, rfl, rfl⟩

theorem C4_stt_detail_aborts_witness :
    API.stt envBadAudio.stt = .error (Thrown.error "bad audio") ∧
    (endFlow envBadAudio recordingPage).calls =
      recordingPage.calls ++ [Call.recorderStop, Call.stt "UklGRg==" recordingPage.sourceInput] ∧
    (endFlow envBadAudio recordingPage).historyData = recordingPage.historyData :=
  ⟨(C4_stt_detail_aborts envBadAudio recordingPage 1 "UklGRg==" "bad audio" 400
      { detail := some "bad audio" } rfl rfl rfl rfl rfl rfl (by decide)).1,
    (C4_stt_detail_aborts envBadAudio recordingPage 1 "UklGRg==" "bad audio" 400
      { detail := some "bad audio" } rfl rfl rfl rfl rfl rfl (by decide)).2.1,
    (C4_stt_detail_aborts envBadAudio recordingPage 1 "UklGRg==" "bad audio" 400
      { detail := some "bad audio" } rfl rfl rfl rfl rfl rfl (by decide)).2.2.2.1⟩

/-- C4 (as stated) fails for the empty detail message: a status-400 response
whose body carries `detail: ""` makes `API.stt` fail with the message
`STT Failed`, not with the empty message. -/
theorem C4_counterexample :
    Fetched.okStatus 400 = false ∧
    API.stt (.response 400 (.ok { detail := some "" })) = .error (Thrown.error "STT Failed") ∧
    API.stt (.response 400 (.ok { detail := some "" })) ≠ .error (Thrown.error "") := by
  refine ⟨rfl, rfl, ?_⟩
  intro h
  have h2 : API.stt (.response 400 (.ok { detail := some "" })) =
      .error (Thrown.error "STT Failed") := rfl
  rw [h2] at h
  simp at h

/-- C5: for every text `t`, when the translate request gets a 404 response
(whatever its body), `API.translate` returns successfully with
`translated_text` equal to `t`; and in a run of `endFlow` in which transcribe
returned `t`, translate got a 404 and synthesize succeeds, the translation
shown is `t`, synthesize is called with `t` and the target language, and the
status ends as `Ready`. -/
theorem C5_identity_fallback (env : Env) (s : App) (m : Nat) (a : String) (body sp : Json)
    (json : Except String Json)
    (hrec : s.isRecording = true) (hm : s.recorder.mediaRecorder = some m)
    (hstop : env.stop = .data a) (hstt : API.stt env.stt = .ok body)
    (h404 : env.translate = .response 404 json) (htts : API.tts env.tts = .ok sp) :
    (∀ t : String, API.translate t (.response 404 json) = .ok { translated_text := t }) ∧
    (endFlow env s).translation = body.text ∧
    (endFlow env s).calls = s.calls ++ [Call.recorderStop, Call.stt a s.sourceInput,
      Call.translate body.text s.sourceInput s.targetInput,
      Call.tts body.text s.targetInput,
      Call.audioPlay ("data:audio/mp3;base64," ++ sp.audio_base64)] ∧
    (endFlow env s).historyData.head? = some { src := body.text, tgt := body.text } ∧
    (endFlow env s).status = "Ready" := by
  have h1 : ∀ t : String, API.translate t (.response 404 json) = .ok { translated_text := t } := by
    intro t
    simp [API.translate]
  have htr : API.translate body.text env.translate = .ok { translated_text := body.text } := by
    rw [h404]; exact h1 _
  rw [endFlow_success env s m a body _ sp hrec hm hstop hstt htr htts]
  exact ⟨h1, rfl, rfl, historyPush_head _ _ _, rfl⟩

theorem C5_identity_fallback_witness :
    (endFlow envTranslateMissing recordingPage).translation = "hello" ∧
    (endFlow envTranslateMissing recordingPage).status = "Ready" :=
  ⟨(C5_identity_fallback envTranslateMissing recordingPage 1 "UklGRg==" { text := "hello" }
      { audio_base64 := "QUJD" } (.error "Unexpected token") rfl rfl rfl rfl rfl rfl).2.1,
    (C5_identity_fallback envTranslateMissing recordingPage 1 "UklGRg==" { text := "hello" }
      { audio_base64 := "QUJD" } (.error "Unexpected token") rfl rfl rfl rfl rfl rfl).2.2.2.2⟩

/-- C6: in a run of `endFlow` from a recording state in which capture yields
audio `a`, transcribe returns text `t`, translate returns `u` and synthesize
returns `b`, the calls made are, in this order, `recorder.stop()`, transcribe
with `a` and the source language, translate with `t` and the language pair,
synthesize with `u` and the target language, and playback of the data URL that
carries `b`; afterwards the status is `Ready`, the transcript is `t`, the
translation is `u`, and the first history entry is the pair of `t` and `u`. -/
theorem C6_end_to_end (env : Env) (s : App) (m : Nat) (a : String) (body tr sp : Json)
    (hrec : s.isRecording = true) (hm : s.recorder.mediaRecorder = some m)
    (hstop : env.stop = .data a) (hstt : API.stt env.stt = .ok body)
    (htr : API.translate body.text env.translate = .ok tr)
    (htts : API.tts env.tts = .ok sp) :
    (endFlow env s).calls = s.calls ++ [Call.recorderStop, Call.stt a s.sourceInput,
      Call.translate body.text s.sourceInput s.targetInput,
      Call.tts tr.translated_text s.targetInput,
      Call.audioPlay ("data:audio/mp3;base64," ++ sp.audio_base64)] ∧
    (endFlow env s).status = "Ready" ∧
    (endFlow env s).transcript = body.text ∧
    (endFlow env s).translation = tr.translated_text ∧
    (endFlow env s).historyData.head? = some { src := body.text, tgt := tr.translated_text } ∧
    (endFlow env s).persisted = some (endFlow env s).historyData ∧
    (endFlow env s).audioSrc = "data:audio/mp3;base64," ++ sp.audio_base64 := by
  rw [endFlow_success env s m a body tr sp hrec hm hstop hstt htr htts]
  exact ⟨rfl, rfl, rfl, rfl, historyPush_head _ _ _, rfl, rfl⟩

theorem C6_end_to_end_witness :
    (endFlow envSuccess recordingPage).status = "Ready" ∧
    (endFlow envSuccess recordingPage).historyData.head? =
      some { src := "hello", tgt := "bonjour" } ∧
    (endFlow envSuccess recordingPage).audioSrc = "data:audio/mp3;base64," ++ "QUJD" :=
  ⟨(C6_end_to_end envSuccess recordingPage 1 "UklGRg==" { text := "hello" }
      { translated_text := "bonjour" } { audio_base64 := "QUJD" } rfl rfl rfl rfl rfl rfl).2.1,
    (C6_end_to_end envSuccess recordingPage 1 "UklGRg==" { text := "hello" }
      { translated_text := "bonjour" } { audio_base64 := "QUJD" } rfl rfl rfl rfl rfl rfl).2.2.2.2.1,
    (C6_end_to_end envSuccess recordingPage 1 "UklGRg==" { text := "hello" }
      { translated_text := "bonjour" } { audio_base64 := "QUJD" } rfl rfl rfl rfl rfl
      rfl).2.2.2.2.2.2⟩

/-- C7 (as amended): the pair is appended to the history when translate has
succeeded, before synthesize is called: the resumption after translate already
holds the new history and its persisted copy while suspended at the synthesize
call, and in a run in which transcribe and translate succeed with `t` and `u`
and synthesize fails, the history after the run is the history before it with
the pair of `t` and `u` added by `addToHistory`, and the persisted record holds
that sequence. -/
theorem C7_history_before_synthesize (env : Env) (s : App) (m : Nat) (a : String)
    (body tr : Json) (e : Thrown)
    (hrec : s.isRecording = true) (hm : s.recorder.mediaRecorder = some m)
    (hstop : env.stop = .data a) (hstt : API.stt env.stt = .ok body)
    (htr : API.translate body.text env.translate = .ok tr)
    (htts : API.tts env.tts = .error e) :
    (∀ s2 : App, (endFlowAfterTranslate body.text (.ok tr) s2).2 = some Pending.tts ∧
      (endFlowAfterTranslate body.text (.ok tr) s2).1.historyData =
        historyPush body.text tr.translated_text s2.historyData) ∧
    (endFlow env s).historyData = historyPush body.text tr.translated_text s.historyData ∧
    (endFlow env s).historyData.head? = some { src := body.text, tgt := tr.translated_text } ∧
    (endFlow env s).persisted = some (endFlow env s).historyData := by
  rw [endFlow_tts_error env s m a body tr e hrec hm hstop hstt htr htts]
  refine ⟨fun s2 => ⟨rfl, rfl⟩, rfl, historyPush_head _ _ _, rfl⟩

theorem C7_history_before_synthesize_witness :
    (endFlow envTtsFails recordingPage).historyData = [{ src := "hello", tgt := "bonjour" }] :=
  (C7_history_before_synthesize envTtsFails recordingPage 1 "UklGRg==" { text := "hello" }
    { translated_text := "bonjour" } (Thrown.error "TTS Failed") rfl rfl rfl rfl rfl rfl).2.1

/-- C7 (as stated) fails: transcribe and translate succeed, synthesize is
answered with status 500, and the history, empty before the run, holds one
entry after it, which is also what the persisted record holds. -/
theorem C7_counterexample :
    API.tts envTtsFails.tts = .error (Thrown.error "TTS Failed") ∧
    recordingPage.historyData = [] ∧
    recordingPage.persisted = none ∧
    (endFlow envTtsFails recordingPage).historyData = [{ src := "hello", tgt := "bonjour" }] ∧
    (endFlow envTtsFails recordingPage).persisted =
      some [{ src := "hello", tgt := "bonjour" }] ∧
    (endFlow envTtsFails recordingPage).historyData ≠ recordingPage.historyData ∧
    (endFlow envTtsFails recordingPage).persisted ≠ recordingPage.persisted := by
  refine ⟨rfl, rfl, rfl, rfl, rfl, ?_, ?_⟩
  · intro h
    have h2 := congrArg List.length h
    exact absurd h2 (by decide)
  · intro h
    have h2 := congrArg Option.isSome h
    exact absurd h2 (by decide)

end VaaniAi
